import Mathlib

/-!
Shallow embedding of the simpleforce Salesforce client (src/force.go) in Lean 4.

The network is modelled as an explicit oracle (`Transport`) mapping each HTTP
request to either a transport failure or a response; every operation returns the
list of requests it issued, so that "no network call is attempted" is the
statement that this list is empty.  Wire encodings (JSON / XML) are abstracted
into semantic `Body` variants: a variant carries the value that the
corresponding Go decode (json.Unmarshal / xml.Unmarshal) would produce, and
decoding a body of the wrong variant models a decode failure.  File-system
writes of the download helper are modelled as an explicit `FileEffect`.

Definitions marked `Modelled from the spec:` translate code of this repository
that is not under src/ (error.go and sobject.go: the error mapper, the
authentication sentinel, and the generic SObject record operations), following
the wording of spec.md sections 3, 4.4 and 4.5.
-/

namespace Simpleforce

/-! ## String helpers (Go standard library operations, kernel-reducible) -/

/-- Splits a format string at each occurrence of the two-character verb used by
the fmt.Sprintf calls in force.go (all of them use only that string verb). -/
def splitFmt : List Char → List String
  | [] => [""]
  | '%' :: 's' :: rest => "" :: splitFmt rest
  | c :: rest =>
    match splitFmt rest with
    | [] => [String.singleton c]
    | p :: ps => (String.singleton c ++ p) :: ps

/-- Interleaves format pieces with arguments. -/
def fmtInterleave : List String → List String → String
  | ps, [] => String.join ps
  | [], _ :: _ => ""
  | p :: ps, a :: as => p ++ a ++ fmtInterleave ps as

/-- fmt.Sprintf restricted to the string verb, which is the only verb used for
URL and SOQL construction in force.go. -/
def Sprintf (format : String) (args : List String) : String :=
  fmtInterleave (splitFmt format.data) args

/-- strings.HasPrefix from the Go standard library. -/
def hasPrefixStr (s p : String) : Bool := p.data.isPrefixOf s.data

/-- Fuel-driven simultaneous replacement of every occurrence of a pattern. -/
def replaceFuel (pat rep : List Char) : Nat → List Char → List Char
  | 0, l => l
  | _ + 1, [] => []
  | fuel + 1, c :: rest =>
    if pat.isPrefixOf (c :: rest) ∧ pat ≠ [] then
      rep ++ replaceFuel pat rep fuel ((c :: rest).drop pat.length)
    else
      c :: replaceFuel pat rep fuel rest

/-- strings.Replace with count -1 from the Go standard library: replaces every
occurrence of pat by rep, scanning left to right. -/
def stringReplaceAll (s pat rep : String) : String :=
  String.mk (replaceFuel pat.data rep.data s.data.length s.data)

/-- strings.TrimRight with cutset consisting of the slash character: removes
all trailing slash characters. -/
def trimRightSlash (s : String) : String :=
  String.mk ((s.data.reverse.dropWhile (fun c => c = '/')).reverse)

/-- UTF-8 encoding of one code point, as the Go byte conversion produces it. -/
def utf8Bytes (c : Char) : List Nat :=
  let n := c.toNat
  if n < 128 then [n]
  else if n < 2048 then [192 + n / 64, 128 + n % 64]
  else if n < 65536 then [224 + n / 4096, 128 + n / 64 % 64, 128 + n % 64]
  else [240 + n / 262144, 128 + n / 4096 % 64, 128 + n / 64 % 64, 128 + n % 64]

/-- The byte sequence of a Go string (UTF-8). -/
def stringBytes (s : String) : List Nat := List.flatten (s.data.map utf8Bytes)

def hexUpperDigits : List Char :=
  ['0', '1', '2', '3', '4', '5', '6', '7', '8', '9', 'A', 'B', 'C', 'D', 'E', 'F']

/-- Two upper-case hexadecimal digits of a byte value. -/
def byteHex (b : Nat) : String :=
  String.mk [hexUpperDigits.getD (b / 16 % 16) '0', hexUpperDigits.getD (b % 16) '0']

/-- Whether net/url QueryEscape leaves the byte unescaped: ASCII letters,
digits, and the four marks minus, underscore, dot, tilde. -/
def isUnreservedQueryByte (b : Nat) : Bool :=
  (65 ≤ b && b ≤ 90) || (97 ≤ b && b ≤ 122) || (48 ≤ b && b ≤ 57) ||
    b = 45 || b = 95 || b = 46 || b = 126

/-- Escaping of a single byte under net/url QueryEscape: space becomes plus,
unreserved bytes stay, every other byte becomes a percent escape. -/
def queryEscapeByte (b : Nat) : String :=
  if b = 32 then "+"
  else if isUnreservedQueryByte b then String.singleton (Char.ofNat b)
  else "%" ++ byteHex b

/-- net/url QueryEscape from the Go standard library. -/
def queryEscape (s : String) : String :=
  String.join ((stringBytes s).map queryEscapeByte)

/-- html.EscapeString from the Go standard library: escapes ampersand,
apostrophe, less-than, greater-than and double-quote characters. -/
def htmlEscapeChar (c : Char) : String :=
  if c = '&' then "&amp;"
  else if c = Char.ofNat 39 then "&#39;"
  else if c = '<' then "&lt;"
  else if c = '>' then "&gt;"
  else if c = Char.ofNat 34 then "&#34;"
  else String.singleton c

def htmlEscapeString (s : String) : String := String.join (s.data.map htmlEscapeChar)

def base64Chars : List Char :=
  "ABCDEFGHIJKLMNOPQRSTUVWXYZabcdefghijklmnopqrstuvwxyz0123456789+/".data

def b64c (n : Nat) : Char := base64Chars.getD n 'A'

/-- encoding/base64 StdEncoding applied to a byte list. -/
def base64EncodeBytes : List Nat → String
  | [] => ""
  | [a] => String.mk [b64c (a / 4), b64c ((a % 4) * 16), '=', '=']
  | [a, b] => String.mk [b64c (a / 4), b64c ((a % 4) * 16 + b / 16), b64c ((b % 16) * 4), '=']
  | a :: b :: c :: rest =>
    String.mk [b64c (a / 4), b64c ((a % 4) * 16 + b / 16),
      b64c ((b % 16) * 4 + c / 64), b64c (c % 64)] ++ base64EncodeBytes rest

/-- base64.StdEncoding.EncodeToString of the bytes of a Go string. -/
def base64Encode (s : String) : String := base64EncodeBytes (stringBytes s)

/-- path/filepath.Base for slash-separated paths (Go standard library). -/
def filepathBase (path : String) : String :=
  if path = "" then "."
  else
    let trimmed := trimRightSlash path
    if trimmed = "" then "/"
    else
      match (trimmed.data.reverse.takeWhile (fun c => c ≠ '/')).reverse with
      | [] => "/"
      | l => String.mk l

/-- The apostrophe character as a string (used by the ContentDocumentId SOQL). -/
def sq : String := String.singleton (Char.ofNat 39)

/-! ## Data model -/

/-- Dynamically typed field value of a generic record.  Modelled from the spec:
the SObject field map (sobject.go is not under src/) holds string, number,
boolean, nested object, or null values (spec.md section 3). -/
inductive SValue where
  | str (s : String)
  | num (n : Int)
  | boolean (b : Bool)
  | obj (fields : List (String × SValue))
  | null

/-- Cached user identity inside the Client (src/force.go lines 31 to 36). -/
structure UserInfo where
  id : String := ""
  name : String := ""
  fullName : String := ""
  email : String := ""
deriving DecidableEq, Repr

/-- The Client state, translated from src/force.go lines 29 to 43.  The Go
http.Client handle is not part of the state: the network is passed explicitly
as a `Transport` oracle to each operation. -/
structure Client where
  sessionID : String := ""
  user : UserInfo := {}
  clientID : String := ""
  apiVersion : String := ""
  baseURL : String := ""
  instanceURL : String := ""
  useToolingAPI : Bool := false
deriving DecidableEq, Repr

/-- Modelled from the spec: one generic record (sobject.go is not under src/).
An open-ended mapping from field name to dynamically typed value, the reserved
type name, and a non-owning back-reference to the owning Client
(spec.md section 3). -/
structure SObject where
  fields : List (String × SValue) := []
  stype : Option String := none
  client : Option Client := none

/-- QueryResult, translated from src/force.go lines 46 to 51. -/
structure QueryResult where
  TotalSize : Int := 0
  Done : Bool := false
  NextRecordsURL : String := ""
  Records : List SObject := []

/-- The XML login response fields, translated from src/force.go lines 202
to 210.  A missing element leaves the corresponding field at the empty-string
zero value, exactly as encoding/xml leaves a Go struct field. -/
structure LoginResponse where
  serverURL : String := ""
  sessionID : String := ""
  userID : String := ""
  userEmail : String := ""
  userFullName : String := ""
  userName : String := ""
deriving DecidableEq, Repr

/-- Modelled from the spec: the organization metadata list returned by the
describe endpoint (the SObjectMeta declaration is not under src/). -/
structure SObjectMeta where
  sobjects : List SObject := []

/-- Request and response payloads.  Wire encodings are abstracted into semantic
variants: a variant carries the value the corresponding Go decode would
produce, and decoding a body of the wrong variant models a decode failure. -/
inductive Body where
  | raw (s : String)
  | queryJson (qr : QueryResult)
  | loginXml (lr : LoginResponse)
  | metaJson (m : SObjectMeta)
  | errorEnvelope (entries : List (String × String))
  | createRespJson (id : String) (success : Bool)
  | sobjectJson (fields : List (String × SValue))

/-- The textual rendering of a body, as buf.String() produces it; the text of
the structured variants is abstracted as empty. -/
def Body.text : Body → String
  | .raw s => s
  | _ => ""

structure HttpRequest where
  method : String
  url : String
  headers : List (String × String)
  body : Option Body

structure HttpResponse where
  statusCode : Nat
  body : Body

/-- What the network does with one request: fail at the transport level or
deliver a response. -/
inductive TransportResult where
  | transportFailure (msg : String)
  | response (resp : HttpResponse)

/-- The network oracle standing for the Go http.Client. -/
def Transport : Type := HttpRequest → TransportResult

/-- Error values, separating the distinct Go error sources by constructor:
`errAuthentication` is the sentinel; `salesforceError` and `genericMapped` are
the two outcomes of the error mapper (a typed SalesforceError value);
`goError` is a plain error built with fmt.Errorf; the remaining constructors
stand for transport, decode and local file errors surfaced verbatim. -/
inductive SFError where
  | errAuthentication
  | salesforceError (statusCode : Nat) (errorCode : String) (message : String)
  | genericMapped (statusCode : Nat) (bodyText : String)
  | goError (message : String)
  | transportError (message : String)
  | decodeError (message : String)
  | localIOError (message : String)
deriving DecidableEq, Repr

/-- Modelled from the spec: the fixed sentinel not-authenticated error value
(ErrAuthentication, declared in error.go which is not under src/). -/
def ErrAuthentication : SFError := .errAuthentication

/-- Modelled from the spec: the error mapper (ParseSalesforceError in error.go,
not under src/).  It attempts to parse the body as the platform JSON error
envelope, an array of message and errorCode objects; on success it returns an
error carrying the first entry code and message plus the HTTP status; on
failure a generic error carrying only the status and the raw body text
(spec.md section 4.5). -/
def ParseSalesforceError (statusCode : Nat) (body : Body) : SFError :=
  match body with
  | .errorEnvelope ((message, errorCode) :: _) => .salesforceError statusCode errorCode message
  | _ => .genericMapped statusCode body.text

/-- Decoding a body as a QueryResult (json.Unmarshal into QueryResult). -/
def decodeQueryResult : Body → Option QueryResult
  | .queryJson qr => some qr
  | _ => none

/-- Decoding a body as the login response (xml.Unmarshal). -/
def decodeLoginResponse : Body → Option LoginResponse
  | .loginXml lr => some lr
  | _ => none

/-- Decoding a body as the describe metadata (json.Unmarshal into SObjectMeta). -/
def decodeSObjectMeta : Body → Option SObjectMeta
  | .metaJson m => some m
  | _ => none

/-- Decoding a body as the create-call response carrying the server-assigned
identifier and the success flag. -/
def decodeCreateResp : Body → Option (String × Bool)
  | .createRespJson i ok => some (i, ok)
  | _ => none

/-- The file-system effect of one download call. -/
inductive FileEffect where
  | noFile
  | created (path : String) (contents : Body)

/-! ## Generic record operations (sobject.go, modelled from the spec) -/

/-- Sets a key in a field list, replacing an existing binding. -/
def setFieldList : List (String × SValue) → String → SValue → List (String × SValue)
  | [], k, v => [(k, v)]
  | (k0, v0) :: rest, k, v =>
    if k0 = k then (k, v) :: rest else (k0, v0) :: setFieldList rest k v

def lookupFieldList : List (String × SValue) → String → Option SValue
  | [], _ => none
  | (k0, v0) :: rest, k => if k0 = k then some v0 else lookupFieldList rest k

/-- Modelled from the spec: Set stores a field value under a name and returns
the record so calls can be chained (sobject.go is not under src/). -/
def SObject.set (obj : SObject) (k : String) (v : SValue) : SObject :=
  { obj with fields := setFieldList obj.fields k v }

/-- Modelled from the spec: the typed string accessor returns the string value
of the named field, or the empty string when the field is absent or of another
underlying type (best-effort zero-value contract, spec.md section 4.4). -/
def SObject.stringField (obj : SObject) (k : String) : String :=
  match lookupFieldList obj.fields k with
  | some (.str s) => s
  | _ => ""

/-- Modelled from the spec: the read-only accessor for the reserved record
identifier. -/
def SObject.id (obj : SObject) : String := obj.stringField "Id"

/-- Modelled from the spec: attaches the owning Client back-reference to the
record (sobject.go is not under src/). -/
def SObject.setClient (obj : SObject) (c : Client) : SObject := { obj with client := some c }

/-- Modelled from the spec: sets the reserved remote type name. -/
def SObject.setType (obj : SObject) (t : String) : SObject := { obj with stype := some t }

/-! ## Client operations (src/force.go) -/

/-- GetSid, src/force.go lines 54 to 56. -/
def Client.getSid (client : Client) : String := client.sessionID

/-- GetLoc, src/force.go lines 59 to 61. -/
def Client.getLoc (client : Client) : String := client.instanceURL

/-- SetSidLoc, src/force.go lines 64 to 67: injects a session without login. -/
def Client.setSidLoc (client : Client) (sid loc : String) : Client :=
  { client with sessionID := sid, instanceURL := loc }

/-- isLoggedIn, src/force.go lines 137 to 139. -/
def Client.isLoggedIn (client : Client) : Bool := client.sessionID ≠ ""

/-- SObject factory on the client, src/force.go lines 127 to 134; the variadic
type-name argument is modelled as an Option. -/
def Client.sobject (client : Client) (typeName : Option String) : SObject :=
  match typeName with
  | some t => ((⟨[], none, none⟩ : SObject).setClient client).setType t
  | none => (⟨[], none, none⟩ : SObject).setClient client

/-- The request built by httpRequest, src/force.go lines 274 to 280. -/
def Client.httpReq (client : Client) (method u : String) (body : Option Body) : HttpRequest :=
  { method := method, url := u,
    headers := [("Authorization", "Bearer " ++ client.sessionID),
      ("Content-Type", "application/json")],
    body := body }

/-- httpRequest, src/force.go lines 273 to 299: executes the request; on a
status outside 200 to 299 reads the body and returns the mapped error with no
data, otherwise returns the raw response body. -/
def Client.httpRequest (client : Client) (transport : Transport) (method u : String)
    (body : Option Body) : List HttpRequest × Except SFError Body :=
  match transport (client.httpReq method u body) with
  | .transportFailure msg => ([client.httpReq method u body], .error (.transportError msg))
  | .response resp =>
    if resp.statusCode < 200 ∨ resp.statusCode > 299 then
      ([client.httpReq method u body], .error (ParseSalesforceError resp.statusCode resp.body))
    else
      ([client.httpReq method u body], .ok resp.body)

/-- The URL built by Query, src/force.go lines 75 to 87: a continuation URL is
used verbatim; a SOQL string is percent-encoded into the query endpoint, whose
format string first has query replaced by tooling/query when the tooling flag
is set. -/
def Client.queryURL (client : Client) (q : String) : String :=
  if hasPrefixStr q "/services/data" then
    Sprintf "%s%s" [client.instanceURL, q]
  else
    let formatString := "%s/services/data/v%s/query?q=%s"
    let baseURL := client.instanceURL
    let formatString :=
      if client.useToolingAPI then stringReplaceAll formatString "query" "tooling/query"
      else formatString
    Sprintf formatString [baseURL, client.apiVersion, queryEscape q]

/-- Query, src/force.go lines 70 to 107. -/
def Client.query (client : Client) (transport : Transport) (q : String) :
    List HttpRequest × Except SFError QueryResult :=
  if !client.isLoggedIn then ([], .error ErrAuthentication)
  else
    let pr := client.httpRequest transport "GET" (client.queryURL q) none
    match pr.2 with
    | .error e => (pr.1, .error e)
    | .ok data =>
      match decodeQueryResult data with
      | none => (pr.1, .error (.decodeError "json: cannot unmarshal query response"))
      | some result =>
        (pr.1, .ok { result with Records := result.Records.map (fun r => r.setClient client) })

/-- ApexREST, src/force.go lines 110 to 124. -/
def Client.apexREST (client : Client) (transport : Transport) (method path : String)
    (requestBody : Option Body) : List HttpRequest × Except SFError Body :=
  if !client.isLoggedIn then ([], .error ErrAuthentication)
  else client.httpRequest transport method (Sprintf "%s/%s" [client.instanceURL, path]) requestBody

/-- The request built by QueryMore, src/force.go lines 237 to 245. -/
def Client.queryMoreReq (client : Client) (nextRecordsURL : String) : HttpRequest :=
  { method := "GET", url := Sprintf "%s%s" [client.instanceURL, nextRecordsURL],
    headers := [("Authorization", "Bearer " ++ client.sessionID),
      ("Content-Type", "application/json")],
    body := none }

/-- QueryMore, src/force.go lines 231 to 270.  Note that it performs its own
request and, on a status outside 200 to 299, returns a plain formatted error
rather than routing the body through the error mapper. -/
def Client.queryMore (client : Client) (transport : Transport) (nextRecordsURL : String) :
    List HttpRequest × Except SFError QueryResult :=
  if !client.isLoggedIn then ([], .error ErrAuthentication)
  else
    match transport (client.queryMoreReq nextRecordsURL) with
    | .transportFailure msg =>
      ([client.queryMoreReq nextRecordsURL], .error (.transportError msg))
    | .response resp =>
      if resp.statusCode < 200 ∨ resp.statusCode > 299 then
        ([client.queryMoreReq nextRecordsURL],
          .error (.goError ("QueryMore failed with status: " ++ toString resp.statusCode)))
      else
        match decodeQueryResult resp.body with
        | none => ([client.queryMoreReq nextRecordsURL],
            .error (.decodeError "json: cannot unmarshal query response"))
        | some result =>
          ([client.queryMoreReq nextRecordsURL], .ok { result with
            Records := result.Records.map (fun r => r.setClient client) })

/-- The SOAP login envelope format, src/force.go lines 148 to 166. -/
def soapBodyFormat : String :=
  "<?xml version=\"1.0\" encoding=\"utf-8\" ?>\n        <env:Envelope\n                xmlns:xsd=\"http://www.w3.org/2001/XMLSchema\"\n                xmlns:xsi=\"http://www.w3.org/2001/XMLSchema-instance\"\n                xmlns:env=\"http://schemas.xmlsoap.org/soap/envelope/\"\n                xmlns:urn=\"urn:partner.soap.sforce.com\">\n            <env:Header>\n                <urn:CallOptions>\n                    <urn:client>%s</urn:client>\n                    <urn:defaultNamespace>sf</urn:defaultNamespace>\n                </urn:CallOptions>\n            </env:Header>\n            <env:Body>\n                <n1:login xmlns:n1=\"urn:partner.soap.sforce.com\">\n                    <n1:username>%s</n1:username>\n                    <n1:password>%s%s</n1:password>\n                </n1:login>\n            </env:Body>\n        </env:Envelope>"

/-- The login request built by LoginPassword, src/force.go lines 167 to 177. -/
def Client.loginReq (client : Client) (username password token : String) : HttpRequest :=
  { method := "POST",
    url := Sprintf "%s/services/Soap/u/%s" [client.baseURL, client.apiVersion],
    headers := [("Content-Type", "text/xml"), ("charset", "UTF-8"), ("SOAPAction", "login")],
    body := some (.raw (Sprintf soapBodyFormat
      [client.clientID, username, htmlEscapeString password, token])) }

/-- parseHost, src/force.go lines 475 to 481.  The stdlib url.Parse is
abstracted: for an absolute URL the scheme is the part before the separator
and the host extends to the next slash; the parse-failure branch of url.Parse
is not modelled. -/
def parseHostSplit : List Char → List Char → Option (List Char × List Char)
  | ':' :: '/' :: '/' :: rest, acc => some (acc.reverse, rest)
  | c :: rest, acc => parseHostSplit rest (c :: acc)
  | [], _ => none

/-- parseHost, src/force.go lines 475 to 481, built on the splitter above. -/
def parseHost (input : String) : String :=
  match parseHostSplit input.data [] with
  | some (scheme, rest) =>
    String.mk scheme ++ "://" ++ String.mk (rest.takeWhile (fun c => c ≠ '/'))
  | none => "://"

/-- LoginPassword, src/force.go lines 144 to 228: posts the SOAP envelope; on
a status other than 200 returns the mapped error and leaves the client
untouched; on 200 decodes the XML and stores session, instance URL and user
identity (the read-error of the body is only logged in Go and is not a
separate outcome here). -/
def Client.loginPassword (client : Client) (transport : Transport)
    (username password token : String) : List HttpRequest × Client × Option SFError :=
  match transport (client.loginReq username password token) with
  | .transportFailure msg =>
    ([client.loginReq username password token], client, some (.transportError msg))
  | .response resp =>
    if resp.statusCode ≠ 200 then
      ([client.loginReq username password token], client,
        some (ParseSalesforceError resp.statusCode resp.body))
    else
      match decodeLoginResponse resp.body with
      | none => ([client.loginReq username password token], client,
          some (.decodeError "xml: cannot unmarshal login response"))
      | some lr =>
        ([client.loginReq username password token], { client with
            sessionID := lr.sessionID,
            instanceURL := parseHost lr.serverURL,
            user := { id := lr.userID, name := lr.userName,
                      email := lr.userEmail, fullName := lr.userFullName } }, none)

/-- The request built by download, src/force.go lines 446 to 449; the error of
http.NewRequest is shadowed in the Go code and never checked. -/
def Client.downloadReq (client : Client) (apiPath : String) : HttpRequest :=
  { method := "GET",
    url := Sprintf "%s%s" [trimRightSlash client.instanceURL, apiPath],
    headers := [("Content-Type", "application/json; charset=UTF-8"),
      ("Accept", "application/json"),
      ("Authorization", "Bearer " ++ client.sessionID)],
    body := none }

/-- download, src/force.go lines 443 to 473.  There is no login check; on a
status outside 200 to 299 a plain formatted error is returned and the
destination file is untouched; only on success is the file created (the
fsCreateOk oracle stands for the success of os.Create; io.Copy is modelled as
total). -/
def Client.download (client : Client) (transport : Transport) (fsCreateOk : String → Bool)
    (apiPath filepath : String) : List HttpRequest × FileEffect × Option SFError :=
  match transport (client.downloadReq apiPath) with
  | .transportFailure msg => ([client.downloadReq apiPath], .noFile, some (.transportError msg))
  | .response resp =>
    if resp.statusCode < 200 ∨ resp.statusCode > 299 then
      ([client.downloadReq apiPath], .noFile, some (.goError
        ("ERROR: statuscode: " ++ toString resp.statusCode ++ ", body: " ++ resp.body.text)))
    else if fsCreateOk filepath then
      ([client.downloadReq apiPath], .created filepath resp.body, none)
    else
      ([client.downloadReq apiPath], .noFile, some (.localIOError filepath))

/-- DownloadFile, src/force.go lines 413 to 416. -/
def Client.downloadFile (client : Client) (transport : Transport) (fsCreateOk : String → Bool)
    (contentVersionID filepath : String) : List HttpRequest × FileEffect × Option SFError :=
  client.download transport fsCreateOk
    (Sprintf "/services/data/v%s/sobjects/ContentVersion/%s/VersionData"
      [client.apiVersion, contentVersionID]) filepath

/-- DownloadAttachment, src/force.go lines 418 to 421. -/
def Client.downloadAttachment (client : Client) (transport : Transport)
    (fsCreateOk : String → Bool) (attachmentId filepath : String) :
    List HttpRequest × FileEffect × Option SFError :=
  client.download transport fsCreateOk
    (Sprintf "/services/data/v%s/sobjects/Attachment/%s/Body"
      [client.apiVersion, attachmentId]) filepath

/-- DownloadLegacyFile, src/force.go lines 438 to 441. -/
def Client.downloadLegacyFile (client : Client) (transport : Transport)
    (fsCreateOk : String → Bool) (attachmentID filepath : String) :
    List HttpRequest × FileEffect × Option SFError :=
  client.download transport fsCreateOk
    (Sprintf "/services/data/v%s/sobjects/Attachment/%s/Body"
      [client.apiVersion, attachmentID]) filepath

/-- The request built by DescribeGlobal, src/force.go lines 485 to 492; it
addresses the base URL, not the instance URL, and carries whatever session
token the client holds. -/
def Client.describeReq (client : Client) : HttpRequest :=
  { method := "GET",
    url := Sprintf "%s%s" [trimRightSlash client.baseURL,
      Sprintf "/services/data/v%s/sobjects" [client.apiVersion]],
    headers := [("Content-Type", "application/json; charset=UTF-8"),
      ("Accept", "application/json"),
      ("Authorization", "Bearer " ++ client.sessionID)],
    body := none }

/-- DescribeGlobal, src/force.go lines 484 to 513.  There is no login check
and no status-code check: the body is read and unmarshalled whatever the
status; the read error is only logged. -/
def Client.describeGlobal (client : Client) (transport : Transport) :
    List HttpRequest × Except SFError SObjectMeta :=
  match transport client.describeReq with
  | .transportFailure msg => ([client.describeReq], .error (.transportError msg))
  | .response resp =>
    match decodeSObjectMeta resp.body with
    | none => ([client.describeReq], .error (.decodeError "json: cannot unmarshal describe response"))
    | some meta => ([client.describeReq], .ok meta)

/-- NewClient, src/force.go lines 309 to 322: one trailing slash of the base
URL is removed (strings.HasSuffix followed by slicing off the last byte). -/
def NewClient (url clientID apiVersion : String) : Client :=
  let base :=
    match url.data.reverse with
    | '/' :: rest => String.mk rest.reverse
    | _ => url
  { sessionID := "", user := {}, clientID := clientID, apiVersion := apiVersion,
    baseURL := base, instanceURL := "", useToolingAPI := false }

/-! ## Upload (src/force.go lines 354 to 410, with Create modelled from the spec) -/

/-- A functional option mutating the record before creation, src/force.go
lines 395 to 396. -/
def UploadOption : Type := SObject → SObject

/-- WithTitle, src/force.go lines 399 to 403. -/
def WithTitle (title : String) : UploadOption := fun obj => obj.set "Title" (.str title)

/-- WithDescription, src/force.go lines 406 to 410. -/
def WithDescription (desc : String) : UploadOption :=
  fun obj => obj.set "Description" (.str desc)

/-- Modelled from the spec: Create on a generic record (sobject.go is not
under src/): serializes the field map and posts it to the sobjects endpoint of
the record type; on success stores the server-assigned identifier into the
record and returns it; returns none on any failure (spec.md section 4.4). -/
def SObject.create (obj : SObject) (transport : Transport) :
    List HttpRequest × Option SObject :=
  match obj.client, obj.stype with
  | some c, some ty =>
    let pr := c.httpRequest transport "POST"
      (Sprintf "%s/services/data/v%s/sobjects/%s" [c.instanceURL, c.apiVersion, ty])
      (some (.sobjectJson obj.fields))
    match pr.2 with
    | .error _ => (pr.1, none)
    | .ok data =>
      match decodeCreateResp data with
      | some (idVal, true) => (pr.1, some (obj.set "Id" (.str idVal)))
      | _ => (pr.1, none)
  | _, _ => ([], none)

/-- The ContentVersion record built by UploadFileToContentVersion before the
options run, src/force.go lines 367 to 376. -/
def Client.uploadCV (client : Client) (data fileName parentRecordID : String)
    (opts : List UploadOption) : SObject :=
  opts.foldl (fun o f => f o)
    ((((client.sobject (some "ContentVersion")).set "PathOnClient" (.str fileName)).set
        "VersionData" (.str (base64Encode data))).set
      "FirstPublishLocationId" (.str parentRecordID))

/-- The follow-up SOQL resolving the ContentDocumentId, src/force.go line 386
(fmt.Sprintf of the single-quoted identifier). -/
def cdQuery (contentVersionID : String) : String :=
  "SELECT ContentDocumentId FROM ContentVersion WHERE Id = " ++ sq ++ contentVersionID ++ sq

/-- UploadFileToContentVersion, src/force.go lines 354 to 393.  The local read
of the file is the readFile oracle.  Requests of the create step and of the
follow-up query are concatenated in order. -/
def Client.uploadFileToContentVersion (client : Client) (transport : Transport)
    (readFile : String → Option String) (filePath parentRecordID : String)
    (opts : List UploadOption) : List HttpRequest × String × String × Option SFError :=
  match readFile filePath with
  | none => ([], "", "", some (.localIOError "failed to read file"))
  | some data =>
    let cv := client.uploadCV data (filepathBase filePath) parentRecordID opts
    let cr := cv.create transport
    match cr.2 with
    | none => (cr.1, "", "", some (.goError "failed to create ContentVersion"))
    | some result =>
      if result.id = "" then (cr.1, "", "", some (.goError "failed to create ContentVersion"))
      else
        let qres := client.query transport (cdQuery result.id)
        match qres.2 with
        | .error _ => (cr.1 ++ qres.1, result.id, "",
            some (.goError "file uploaded, but failed to retrieve ContentDocumentId"))
        | .ok qr =>
          match qr.Records with
          | [] => (cr.1 ++ qres.1, result.id, "",
              some (.goError "file uploaded, but failed to retrieve ContentDocumentId"))
          | r :: _ => (cr.1 ++ qres.1, result.id, r.stringField "ContentDocumentId", none)

/-! ## Concrete fixtures used by witnesses and counterexamples -/

/-- A logged-in client fixture. -/
def demoClient : Client :=
  { sessionID := "TOKEN", user := {}, clientID := "simpleforce", apiVersion := "54.0",
    baseURL := "https://login.example.com", instanceURL := "https://inst.example.com",
    useToolingAPI := false }

/-- The same client before any login: empty session token. -/
def noAuthClient : Client := { demoClient with sessionID := "" }

/-- A network that always answers 401 with a plain text body. -/
def transport401 : Transport := fun _ => .response { statusCode := 401, body := .raw "Unauthorized" }

/-- A body that parses as the platform JSON error envelope. -/
def envelopeBody : Body := .errorEnvelope [("bad request", "INVALID_FIELD")]

/-- A network that always answers 400 with a parseable error envelope. -/
def transport400 : Transport := fun _ => .response { statusCode := 400, body := envelopeBody }

def demoRecord : SObject := { fields := [("Id", .str "001ABC")], stype := none, client := none }

def demoQueryResult : QueryResult :=
  { TotalSize := 1, Done := true, NextRecordsURL := "", Records := [demoRecord] }

/-- A network that always answers 200 with a one-record query result. -/
def transportQueryOK : Transport :=
  fun _ => .response { statusCode := 200, body := .queryJson demoQueryResult }

/-- A login response that decoded but carries no session identifier. -/
def loginNoSession : LoginResponse :=
  { serverURL := "https://inst.example.com/services/Soap/u/54.0", sessionID := "",
    userID := "005", userEmail := "user@example.com", userFullName := "User Name",
    userName := "user" }

/-- A network that answers the login with 200 and the session-free XML. -/
def transportLoginNoSession : Transport :=
  fun _ => .response { statusCode := 200, body := .loginXml loginNoSession }

/-- A file system on which os.Create always succeeds. -/
def fsAlwaysOk : String → Bool := fun _ => true

/-! ## Helper lemmas -/

theorem Sprintf_cat (a b : String) : Sprintf "%s%s" [a, b] = a ++ b := by
  show "" ++ a ++ ("" ++ b ++ String.join [""]) = a ++ b
  simp [String.join]

theorem Sprintf_slash (a b : String) : Sprintf "%s/%s" [a, b] = a ++ "/" ++ b := by
  show "" ++ a ++ ("/" ++ b ++ String.join [""]) = a ++ "/" ++ b
  simp [String.join, String.append_assoc]

theorem Sprintf_queryFmt (a b c : String) :
    Sprintf "%s/services/data/v%s/query?q=%s" [a, b, c]
      = a ++ "/services/data/v" ++ b ++ "/query?q=" ++ c := by
  show "" ++ a ++ ("/services/data/v" ++ b ++ ("/query?q=" ++ c ++ String.join [""]))
      = a ++ "/services/data/v" ++ b ++ "/query?q=" ++ c
  simp [String.join, String.append_assoc]

theorem Sprintf_toolingFmt (a b c : String) :
    Sprintf "%s/services/data/v%s/tooling/query?q=%s" [a, b, c]
      = a ++ "/services/data/v" ++ b ++ "/tooling/query?q=" ++ c := by
  show "" ++ a ++ ("/services/data/v" ++ b ++ ("/tooling/query?q=" ++ c ++ String.join [""]))
      = a ++ "/services/data/v" ++ b ++ "/tooling/query?q=" ++ c
  simp [String.join, String.append_assoc]

theorem Sprintf_attachmentFmt (a b : String) :
    Sprintf "/services/data/v%s/sobjects/Attachment/%s/Body" [a, b]
      = "/services/data/v" ++ a ++ "/sobjects/Attachment/" ++ b ++ "/Body" := by
  show "/services/data/v" ++ a ++ ("/sobjects/Attachment/" ++ b ++ String.join ["/Body"])
      = "/services/data/v" ++ a ++ "/sobjects/Attachment/" ++ b ++ "/Body"
  simp [String.join, String.append_assoc]

theorem Sprintf_versionDataFmt (a b : String) :
    Sprintf "/services/data/v%s/sobjects/ContentVersion/%s/VersionData" [a, b]
      = "/services/data/v" ++ a ++ "/sobjects/ContentVersion/" ++ b ++ "/VersionData" := by
  show "/services/data/v" ++ a ++ ("/sobjects/ContentVersion/" ++ b ++ String.join ["/VersionData"])
      = "/services/data/v" ++ a ++ "/sobjects/ContentVersion/" ++ b ++ "/VersionData"
  simp [String.join, String.append_assoc]

theorem replace_query_tooling :
    stringReplaceAll "%s/services/data/v%s/query?q=%s" "query" "tooling/query"
      = "%s/services/data/v%s/tooling/query?q=%s" := rfl

/-- httpRequest on a delivered response, written as the branch on the status. -/
theorem httpRequest_response (client : Client) (transport : Transport) (method u : String)
    (body : Option Body) (resp : HttpResponse)
    (h : transport (client.httpReq method u body) = .response resp) :
    client.httpRequest transport method u body
      = if resp.statusCode < 200 ∨ resp.statusCode > 299 then
          ([client.httpReq method u body],
            .error (ParseSalesforceError resp.statusCode resp.body))
        else ([client.httpReq method u body], .ok resp.body) := by
  unfold Client.httpRequest
  rw [h]

/-- Both outcomes of httpRequest issue exactly the one request it builds. -/
theorem httpRequest_fst (client : Client) (transport : Transport) (method u : String)
    (body : Option Body) :
    (client.httpRequest transport method u body).1 = [client.httpReq method u body] := by
  rcases htr : transport (client.httpReq method u body) with msg | resp
  · unfold Client.httpRequest
    rw [htr]
  · rw [httpRequest_response client transport method u body resp htr]
    by_cases hc : resp.statusCode < 200 ∨ resp.statusCode > 299
    · rw [if_pos hc]
    · rw [if_neg hc]

/-- QueryMore on a delivered response, written as the branch on the status. -/
theorem queryMore_response (client : Client) (transport : Transport) (nx : String)
    (resp : HttpResponse) (hl : client.isLoggedIn = true)
    (h : transport (client.queryMoreReq nx) = .response resp) :
    client.queryMore transport nx
      = if resp.statusCode < 200 ∨ resp.statusCode > 299 then
          ([client.queryMoreReq nx],
            .error (.goError ("QueryMore failed with status: " ++ toString resp.statusCode)))
        else
          match decodeQueryResult resp.body with
          | none => ([client.queryMoreReq nx],
              .error (.decodeError "json: cannot unmarshal query response"))
          | some result =>
            ([client.queryMoreReq nx], .ok { result with
              Records := result.Records.map (fun r => r.setClient client) }) := by
  unfold Client.queryMore
  rw [hl, h]
  rfl

/-- LoginPassword on a delivered response, written as the branch on the status. -/
theorem loginPassword_response (client : Client) (transport : Transport)
    (username password token : String) (resp : HttpResponse)
    (h : transport (client.loginReq username password token) = .response resp) :
    client.loginPassword transport username password token
      = if resp.statusCode ≠ 200 then
          ([client.loginReq username password token], client,
            some (ParseSalesforceError resp.statusCode resp.body))
        else
          match decodeLoginResponse resp.body with
          | none => ([client.loginReq username password token], client,
              some (.decodeError "xml: cannot unmarshal login response"))
          | some lr =>
            ([client.loginReq username password token], { client with
                sessionID := lr.sessionID,
                instanceURL := parseHost lr.serverURL,
                user := { id := lr.userID, name := lr.userName,
                          email := lr.userEmail, fullName := lr.userFullName } }, none) := by
  unfold Client.loginPassword
  rw [h]

/-- download on a delivered response, written as the branch on the status. -/
theorem download_response (client : Client) (transport : Transport)
    (fsCreateOk : String → Bool) (apiPath fp : String) (resp : HttpResponse)
    (h : transport (client.downloadReq apiPath) = .response resp) :
    client.download transport fsCreateOk apiPath fp
      = if resp.statusCode < 200 ∨ resp.statusCode > 299 then
          ([client.downloadReq apiPath], .noFile, some (.goError
            ("ERROR: statuscode: " ++ toString resp.statusCode ++ ", body: " ++ resp.body.text)))
        else if fsCreateOk fp then
          ([client.downloadReq apiPath], .created fp resp.body, none)
        else ([client.downloadReq apiPath], .noFile, some (.localIOError fp)) := by
  unfold Client.download
  rw [h]

/-- A logged-in query issues exactly the GET request on the built URL. -/
theorem query_fst (client : Client) (transport : Transport) (q : String)
    (h : client.isLoggedIn = true) :
    (client.query transport q).1 = [client.httpReq "GET" (client.queryURL q) none] := by
  unfold Client.query
  rw [h]
  simp only [Bool.not_true, Bool.false_eq_true, if_false]
  cases hres : (client.httpRequest transport "GET" (client.queryURL q) none).2 with
  | error e => simpa [hres] using httpRequest_fst client transport "GET" (client.queryURL q) none
  | ok data =>
    cases hdec : decodeQueryResult data <;>
      simpa [hres, hdec] using httpRequest_fst client transport "GET" (client.queryURL q) none

/-- The URL built by Query, written out explicitly for each of the three
branches. -/
theorem queryURL_eq (client : Client) (q : String) :
    client.queryURL q
      = (if hasPrefixStr q "/services/data" then client.instanceURL ++ q
         else if client.useToolingAPI then
           client.instanceURL ++ "/services/data/v" ++ client.apiVersion
             ++ "/tooling/query?q=" ++ queryEscape q
         else
           client.instanceURL ++ "/services/data/v" ++ client.apiVersion
             ++ "/query?q=" ++ queryEscape q) := by
  unfold Client.queryURL
  cases hp : hasPrefixStr q "/services/data" with
  | true => simp [Sprintf_cat]
  | false =>
    cases ht : client.useToolingAPI with
    | true => simp [replace_query_tooling, Sprintf_toolingFmt]
    | false => simp [Sprintf_queryFmt]

/-! ## Claims -/

/-- Claim C2: for a logged-in client, Query issues a single GET whose URL is
the instance URL concatenated with q verbatim when q has the data-API leading
path, and otherwise the query endpoint with the percent-encoded SOQL, with
tooling/query substituted for query when the tooling flag is set. -/
theorem C2_query_url (client : Client) (transport : Transport) (q : String)
    (h : client.isLoggedIn = true) :
    (client.query transport q).1
      = [client.httpReq "GET"
          (if hasPrefixStr q "/services/data" then client.instanceURL ++ q
           else if client.useToolingAPI then
             client.instanceURL ++ "/services/data/v" ++ client.apiVersion
               ++ "/tooling/query?q=" ++ queryEscape q
           else
             client.instanceURL ++ "/services/data/v" ++ client.apiVersion
               ++ "/query?q=" ++ queryEscape q) none] := by
  rw [query_fst client transport q h, queryURL_eq]

/-- Witness for C2 at a concrete logged-in client and SOQL string. -/
theorem C2_query_url_witness :
    (demoClient.query transportQueryOK "SELECT Id FROM Case").1
      = [demoClient.httpReq "GET"
          (if hasPrefixStr "SELECT Id FROM Case" "/services/data" then
             demoClient.instanceURL ++ "SELECT Id FROM Case"
           else if demoClient.useToolingAPI then
             demoClient.instanceURL ++ "/services/data/v" ++ demoClient.apiVersion
               ++ "/tooling/query?q=" ++ queryEscape "SELECT Id FROM Case"
           else
             demoClient.instanceURL ++ "/services/data/v" ++ demoClient.apiVersion
               ++ "/query?q=" ++ queryEscape "SELECT Id FROM Case") none] :=
  C2_query_url demoClient transportQueryOK "SELECT Id FROM Case" rfl

/-- Claim C3: every request executed by httpRequest carries the bearer
authorization and the JSON content type; a status in 200 to 299 returns the
raw body with no error; any other status returns the error mapper result on
the status and body, with no data. -/
theorem C3_httpRequest_pipeline (client : Client) (transport : Transport)
    (method u : String) (body : Option Body) (resp : HttpResponse)
    (h : transport (client.httpReq method u body) = .response resp) :
    (("Authorization", "Bearer " ++ client.sessionID) ∈ (client.httpReq method u body).headers
      ∧ ("Content-Type", "application/json") ∈ (client.httpReq method u body).headers)
    ∧ (200 ≤ resp.statusCode ∧ resp.statusCode ≤ 299 →
        client.httpRequest transport method u body
          = ([client.httpReq method u body], .ok resp.body))
    ∧ (resp.statusCode < 200 ∨ 299 < resp.statusCode →
        client.httpRequest transport method u body
          = ([client.httpReq method u body],
              .error (ParseSalesforceError resp.statusCode resp.body))) := by
  refine ⟨⟨?_, ?_⟩, ?_, ?_⟩
  · simp [Client.httpReq]
  · simp [Client.httpReq]
  · rintro ⟨h1, h2⟩
    rw [httpRequest_response client transport method u body resp h, if_neg (by omega)]
  · intro hbad
    rw [httpRequest_response client transport method u body resp h, if_pos (by omega)]

/-- Witness for C3 at a concrete 401 response. -/
theorem C3_httpRequest_pipeline_witness :
    demoClient.httpRequest transport401 "GET" "https://inst.example.com/x" none
      = ([demoClient.httpReq "GET" "https://inst.example.com/x" none],
          .error (ParseSalesforceError 401 (.raw "Unauthorized"))) :=
  (C3_httpRequest_pipeline demoClient transport401 "GET" "https://inst.example.com/x" none
    { statusCode := 401, body := .raw "Unauthorized" } rfl).2.2 (by decide)

/-- Claim C1 counterexample: with an empty session token, DescribeGlobal and
the download routine still issue their network request (the request list is
the one-element list holding the built request) and return an error different
from the authentication sentinel, refuting the claim that every authenticated
operation is gated. -/
theorem C1_counterexample :
    noAuthClient.sessionID = ""
    ∧ (noAuthClient.describeGlobal transport401).1 = [noAuthClient.describeReq]
    ∧ (noAuthClient.describeGlobal transport401).2
        = .error (.decodeError "json: cannot unmarshal describe response")
    ∧ ((.error (.decodeError "json: cannot unmarshal describe response")
        : Except SFError SObjectMeta) ≠ .error ErrAuthentication)
    ∧ (noAuthClient.download transport401 fsAlwaysOk
        "/services/data/v54.0/sobjects/Attachment/001/Body" "/tmp/out").1
        = [noAuthClient.downloadReq "/services/data/v54.0/sobjects/Attachment/001/Body"]
    ∧ (noAuthClient.download transport401 fsAlwaysOk
        "/services/data/v54.0/sobjects/Attachment/001/Body" "/tmp/out").2.2
        = some (.goError "ERROR: statuscode: 401, body: Unauthorized") := by
  refine ⟨rfl, rfl, rfl, ?_, rfl, rfl⟩
  intro hcontra
  exact absurd (Except.error.inj hcontra) (by decide)

/-- Claim C1, amended: with an empty session token, Query, QueryMore and
ApexREST return the authentication sentinel without issuing any request; the
download helpers and DescribeGlobal are not gated. -/
theorem C1_auth_gate (client : Client) (transport : Transport)
    (q nx method path : String) (body : Option Body)
    (h : client.sessionID = "") :
    client.query transport q = ([], .error ErrAuthentication)
    ∧ client.queryMore transport nx = ([], .error ErrAuthentication)
    ∧ client.apexREST transport method path body = ([], .error ErrAuthentication) := by
  have hl : client.isLoggedIn = false := by
    simp [Client.isLoggedIn, h]
  refine ⟨?_, ?_, ?_⟩
  · unfold Client.query
    rw [hl]
    rfl
  · unfold Client.queryMore
    rw [hl]
    rfl
  · unfold Client.apexREST
    rw [hl]
    rfl

/-- Witness for the amended C1 at a concrete unauthenticated client. -/
theorem C1_auth_gate_witness :
    noAuthClient.sessionID = ""
    ∧ noAuthClient.query transport401 "SELECT Id FROM Case" = ([], .error ErrAuthentication)
    ∧ noAuthClient.queryMore transport401 "/services/data/v54.0/query/01g"
        = ([], .error ErrAuthentication)
    ∧ noAuthClient.apexREST transport401 "GET" "services/apexrest/x" none
        = ([], .error ErrAuthentication) :=
  ⟨rfl, C1_auth_gate noAuthClient transport401 "SELECT Id FROM Case"
    "/services/data/v54.0/query/01g" "GET" "services/apexrest/x" none rfl⟩

/-- Claim C4: every record of a successful Query or QueryMore result carries
the owning client as its back-reference. -/
theorem C4_records_client (client : Client) (transport : Transport) (q nx : String) :
    (∀ qr, (client.query transport q).2 = .ok qr →
      ∀ r ∈ qr.Records, r.client = some client)
    ∧ (∀ qr, (client.queryMore transport nx).2 = .ok qr →
      ∀ r ∈ qr.Records, r.client = some client) := by
  constructor
  · intro qr h r hr
    cases hl : client.isLoggedIn with
    | false =>
      unfold Client.query at h
      rw [hl] at h
      simp at h
    | true =>
      simp only [Client.query, hl, Bool.not_true, Bool.false_eq_true, if_false] at h
      rcases hres : (client.httpRequest transport "GET" (client.queryURL q) none).2 with e | data
      · simp only [hres] at h
        exact Except.noConfusion h
      · simp only [hres] at h
        rcases hdec : decodeQueryResult data with _ | result
        · simp only [hdec] at h
          exact Except.noConfusion h
        · simp only [hdec, Except.ok.injEq] at h
          subst h
          simp only [List.mem_map] at hr
          obtain ⟨a, -, rfl⟩ := hr
          rfl
  · intro qr h r hr
    cases hl : client.isLoggedIn with
    | false =>
      unfold Client.queryMore at h
      rw [hl] at h
      simp at h
    | true =>
      rcases htr : transport (client.queryMoreReq nx) with msg | resp
      · unfold Client.queryMore at h
        rw [hl, htr] at h
        simp at h
      · rw [queryMore_response client transport nx resp hl htr] at h
        by_cases hst : resp.statusCode < 200 ∨ resp.statusCode > 299
        · rw [if_pos hst] at h
          simp at h
        · rw [if_neg hst] at h
          rcases hdec : decodeQueryResult resp.body with _ | result
          · simp only [hdec] at h
            exact Except.noConfusion h
          · simp only [hdec, Except.ok.injEq] at h
            subst h
            simp only [List.mem_map] at hr
            obtain ⟨a, -, rfl⟩ := hr
            rfl

/-- Witness for C4: the one record of the fixture query result carries the
fixture client. -/
theorem C4_records_client_witness :
    (demoRecord.setClient demoClient).client = some demoClient :=
  (C4_records_client demoClient transportQueryOK "SELECT Id FROM Case" "/x").1
    { TotalSize := 1, Done := true, NextRecordsURL := "",
      Records := [demoRecord.setClient demoClient] } rfl
    (demoRecord.setClient demoClient) (List.mem_singleton.mpr rfl)

/-- Claim C5: a login answered with a status other than 200 returns the error
mapper result on the status and body, leaves the client record unchanged, and
an unauthenticated client stays unauthenticated. -/
theorem C5_login_failure (client : Client) (transport : Transport)
    (username password token : String) (resp : HttpResponse)
    (h : transport (client.loginReq username password token) = .response resp)
    (h2 : resp.statusCode ≠ 200) :
    client.loginPassword transport username password token
      = ([client.loginReq username password token], client,
          some (ParseSalesforceError resp.statusCode resp.body))
    ∧ (client.sessionID = "" →
        (client.loginPassword transport username password token).2.1.isLoggedIn = false) := by
  have hmain : client.loginPassword transport username password token
      = ([client.loginReq username password token], client,
          some (ParseSalesforceError resp.statusCode resp.body)) := by
    rw [loginPassword_response client transport username password token resp h, if_pos h2]
  refine ⟨hmain, fun hss => ?_⟩
  rw [hmain]
  simp [Client.isLoggedIn, hss]

/-- Witness for C5 at concrete bad credentials answered with 401. -/
theorem C5_login_failure_witness :
    noAuthClient.loginPassword transport401 "bad" "bad" "bad"
      = ([noAuthClient.loginReq "bad" "bad" "bad"], noAuthClient,
          some (ParseSalesforceError 401 (.raw "Unauthorized")))
    ∧ (noAuthClient.loginPassword transport401 "bad" "bad" "bad").2.1.isLoggedIn = false :=
  ⟨(C5_login_failure noAuthClient transport401 "bad" "bad" "bad"
      { statusCode := 401, body := .raw "Unauthorized" } rfl (by decide)).1,
   (C5_login_failure noAuthClient transport401 "bad" "bad" "bad"
      { statusCode := 401, body := .raw "Unauthorized" } rfl (by decide)).2 rfl⟩

/-- Claim C6 counterexample: a QueryMore answered 400 with a body that parses
as the platform error envelope returns the plain formatted error, which is not
the typed error the error mapper produces from the same status and body. -/
theorem C6_counterexample :
    (demoClient.queryMore transport400 "/services/data/v54.0/query/01g-2000").2
      = .error (.goError "QueryMore failed with status: 400")
    ∧ ParseSalesforceError 400 envelopeBody
      = .salesforceError 400 "INVALID_FIELD" "bad request"
    ∧ SFError.goError "QueryMore failed with status: 400"
        ≠ SFError.salesforceError 400 "INVALID_FIELD" "bad request" :=
  ⟨rfl, rfl, by decide⟩

/-- Claim C6, amended: QueryMore on a status outside 200 to 299 returns a
plain formatted error carrying only the status code; the error mapper is not
invoked. -/
theorem C6_querymore_plain_error (client : Client) (transport : Transport)
    (nx : String) (resp : HttpResponse)
    (hl : client.isLoggedIn = true)
    (h : transport (client.queryMoreReq nx) = .response resp)
    (hbad : resp.statusCode < 200 ∨ 299 < resp.statusCode) :
    client.queryMore transport nx
      = ([client.queryMoreReq nx],
          .error (.goError ("QueryMore failed with status: " ++ toString resp.statusCode))) := by
  rw [queryMore_response client transport nx resp hl h, if_pos (by omega)]

/-- Witness for the amended C6 at the concrete 400 envelope response. -/
theorem C6_querymore_plain_error_witness :
    demoClient.queryMore transport400 "/services/data/v54.0/query/01g-2000"
      = ([demoClient.queryMoreReq "/services/data/v54.0/query/01g-2000"],
          .error (.goError ("QueryMore failed with status: " ++ toString (400 : Nat)))) :=
  C6_querymore_plain_error demoClient transport400 "/services/data/v54.0/query/01g-2000"
    { statusCode := 400, body := envelopeBody } rfl rfl (by decide)

/-- Claim C7 counterexample: a download answered 400 with a body that parses
as the platform error envelope surfaces the plain formatted error, not the
error mapper result on the same status and body. -/
theorem C7_counterexample :
    (demoClient.download transport400 fsAlwaysOk "/api/path" "/tmp/f").2.2
      = some (.goError "ERROR: statuscode: 400, body: ")
    ∧ ParseSalesforceError 400 envelopeBody
      = .salesforceError 400 "INVALID_FIELD" "bad request"
    ∧ (demoClient.download transport400 fsAlwaysOk "/api/path" "/tmp/f").2.2
        ≠ some (ParseSalesforceError 400 envelopeBody) :=
  ⟨rfl, rfl, by decide⟩

/-- Claim C7, amended: a download answered with a status outside 200 to 299
surfaces a plain error embedding the status and body text and leaves the
destination untouched; the file is created only after a success status; the
three wrappers delegate to the same download routine on their api paths. -/
theorem C7_download_frame (client : Client) (transport : Transport)
    (fsCreateOk : String → Bool) (apiPath fp cvId attId : String) (resp : HttpResponse)
    (h : transport (client.downloadReq apiPath) = .response resp) :
    (resp.statusCode < 200 ∨ 299 < resp.statusCode →
      client.download transport fsCreateOk apiPath fp
        = ([client.downloadReq apiPath], .noFile, some (.goError
            ("ERROR: statuscode: " ++ toString resp.statusCode ++ ", body: " ++ resp.body.text))))
    ∧ (∀ p b, (client.download transport fsCreateOk apiPath fp).2.1 = .created p b →
        200 ≤ resp.statusCode ∧ resp.statusCode ≤ 299)
    ∧ client.downloadFile transport fsCreateOk cvId fp
        = client.download transport fsCreateOk
            ("/services/data/v" ++ client.apiVersion ++ "/sobjects/ContentVersion/"
              ++ cvId ++ "/VersionData") fp
    ∧ client.downloadAttachment transport fsCreateOk attId fp
        = client.download transport fsCreateOk
            ("/services/data/v" ++ client.apiVersion ++ "/sobjects/Attachment/"
              ++ attId ++ "/Body") fp
    ∧ client.downloadLegacyFile transport fsCreateOk attId fp
        = client.download transport fsCreateOk
            ("/services/data/v" ++ client.apiVersion ++ "/sobjects/Attachment/"
              ++ attId ++ "/Body") fp := by
  refine ⟨?_, ?_, ?_, ?_, ?_⟩
  · intro hbad
    rw [download_response client transport fsCreateOk apiPath fp resp h, if_pos (by omega)]
  · intro p b hcreated
    by_cases hst : resp.statusCode < 200 ∨ resp.statusCode > 299
    · rw [download_response client transport fsCreateOk apiPath fp resp h, if_pos hst]
        at hcreated
      simp at hcreated
    · omega
  · unfold Client.downloadFile
    rw [Sprintf_versionDataFmt]
  · unfold Client.downloadAttachment
    rw [Sprintf_attachmentFmt]
  · unfold Client.downloadLegacyFile
    rw [Sprintf_attachmentFmt]

/-- Witness for the amended C7 at the concrete 400 envelope response. -/
theorem C7_download_frame_witness :
    demoClient.download transport400 fsAlwaysOk "/api/path" "/tmp/f"
      = ([demoClient.downloadReq "/api/path"], .noFile,
          some (.goError ("ERROR: statuscode: " ++ toString (400 : Nat)
            ++ ", body: " ++ envelopeBody.text))) :=
  (C7_download_frame demoClient transport400 fsAlwaysOk "/api/path" "/tmp/f" "cv" "att"
    { statusCode := 400, body := envelopeBody } rfl).1 (by decide)

/-- Claim C8: a failed or identifier-less create yields empty identifiers and
an error; a successful create whose follow-up query fails or yields no record
still returns the non-empty ContentVersion identifier alongside the error. -/
theorem C8_upload_progress (client : Client) (transport : Transport)
    (readFile : String → Option String) (filePath parentRecordID data : String)
    (opts : List UploadOption)
    (hread : readFile filePath = some data) :
    (((client.uploadCV data (filepathBase filePath) parentRecordID opts).create transport).2
        = none →
      client.uploadFileToContentVersion transport readFile filePath parentRecordID opts
        = (((client.uploadCV data (filepathBase filePath) parentRecordID opts).create
              transport).1,
            "", "", some (.goError "failed to create ContentVersion")))
    ∧ (∀ res,
        ((client.uploadCV data (filepathBase filePath) parentRecordID opts).create
            transport).2 = some res →
        res.id = "" →
        client.uploadFileToContentVersion transport readFile filePath parentRecordID opts
          = (((client.uploadCV data (filepathBase filePath) parentRecordID opts).create
                transport).1,
              "", "", some (.goError "failed to create ContentVersion")))
    ∧ (∀ res,
        ((client.uploadCV data (filepathBase filePath) parentRecordID opts).create
            transport).2 = some res →
        res.id ≠ "" →
        (∀ qr, (client.query transport (cdQuery res.id)).2 = .ok qr → qr.Records = []) →
        client.uploadFileToContentVersion transport readFile filePath parentRecordID opts
          = (((client.uploadCV data (filepathBase filePath) parentRecordID opts).create
                transport).1
              ++ (client.query transport (cdQuery res.id)).1,
              res.id, "",
              some (.goError "file uploaded, but failed to retrieve ContentDocumentId"))) := by
  refine ⟨?_, ?_, ?_⟩
  · intro hc
    simp only [Client.uploadFileToContentVersion, hread, hc]
  · intro res hsome hid
    simp only [Client.uploadFileToContentVersion, hread, hsome]
    rw [if_pos hid]
  · intro res hsome hid hq
    simp only [Client.uploadFileToContentVersion, hread, hsome]
    rw [if_neg hid]
    rcases hqr : (client.query transport (cdQuery res.id)).2 with e | qr
    · simp only [hqr]
    · simp only [hqr]
      rw [hq qr hqr]

/-- Witness for C8: with a network answering 401, the create step fails and
the upload returns empty identifiers and the create error. -/
theorem C8_upload_progress_witness :
    demoClient.uploadFileToContentVersion transport401 (fun _ => some "hello")
        "/tmp/a.txt" "001P" []
      = (((demoClient.uploadCV "hello" (filepathBase "/tmp/a.txt") "001P" []).create
            transport401).1,
          "", "", some (.goError "failed to create ContentVersion")) :=
  (C8_upload_progress demoClient transport401 (fun _ => some "hello") "/tmp/a.txt" "001P"
    "hello" [] rfl).1 rfl

/-- Claim C9: DownloadAttachment and DownloadLegacyFile build the same
attachment body path and delegate to the same download routine, so they agree
on all inputs. -/
theorem C9_download_equiv (client : Client) (transport : Transport)
    (fsCreateOk : String → Bool) (attachmentId fp : String) :
    client.downloadAttachment transport fsCreateOk attachmentId fp
      = client.downloadLegacyFile transport fsCreateOk attachmentId fp
    ∧ client.downloadAttachment transport fsCreateOk attachmentId fp
      = client.download transport fsCreateOk
          ("/services/data/v" ++ client.apiVersion ++ "/sobjects/Attachment/"
            ++ attachmentId ++ "/Body") fp := by
  refine ⟨rfl, ?_⟩
  unfold Client.downloadAttachment
  rw [Sprintf_attachmentFmt]

/-- Claim C10: a login answered 200 with an XML body that decodes but holds no
session identifier stores the empty token, reports no error, and leaves the
client unauthenticated. -/
theorem C10_login_no_session (client : Client) (transport : Transport)
    (username password token : String) (lr : LoginResponse)
    (h : transport (client.loginReq username password token)
          = .response { statusCode := 200, body := .loginXml lr })
    (h2 : lr.sessionID = "") :
    client.loginPassword transport username password token
        = ([client.loginReq username password token],
            { client with
                sessionID := lr.sessionID,
                instanceURL := parseHost lr.serverURL,
                user := { id := lr.userID, name := lr.userName,
                          email := lr.userEmail, fullName := lr.userFullName } }, none)
    ∧ (client.loginPassword transport username password token).2.1.sessionID = ""
    ∧ (client.loginPassword transport username password token).2.1.isLoggedIn = false := by
  have hmain : client.loginPassword transport username password token
      = ([client.loginReq username password token],
          { client with
              sessionID := lr.sessionID,
              instanceURL := parseHost lr.serverURL,
              user := { id := lr.userID, name := lr.userName,
                        email := lr.userEmail, fullName := lr.userFullName } }, none) := by
    rw [loginPassword_response client transport username password token _ h,
      if_neg (by simp)]
    rfl
  refine ⟨hmain, ?_, ?_⟩ <;> rw [hmain] <;> simp [Client.isLoggedIn, h2]

/-- Witness for C10 at the concrete session-free login response. -/
theorem C10_login_no_session_witness :
    (demoClient.loginPassword transportLoginNoSession "u" "p" "t").2.2 = none
    ∧ (demoClient.loginPassword transportLoginNoSession "u" "p" "t").2.1.sessionID = ""
    ∧ (demoClient.loginPassword transportLoginNoSession "u" "p" "t").2.1.isLoggedIn
        = false := by
  obtain ⟨hmain, hs, hl⟩ :=
    C10_login_no_session demoClient transportLoginNoSession "u" "p" "t" loginNoSession rfl rfl
  rw [hmain]
  exact ⟨rfl, hs, hl⟩

end Simpleforce
